import Mathlib

/-!
Shallow embedding of `src/model.rs` of the wizapi repository: the scene
catalog and the device classification / overlay model.  Machine integers
(`u32`, `u16`, `usize`) are modelled as `Nat`; `Result<T, Error>` becomes
`Except WizError T`, where `WizError` enumerates the four error structs of
`wiz_errors`.  Rust `String::contains` (substring containment) is modelled
by `strContains`, and the `optional_struct`-generated `apply_options`
(replace a field iff the overlay field is present) is written out per type.
-/

/-- Modelled after `ColorTempSpace` (`model.rs`): two `u16` temperatures. -/
structure ColorTempSpace where
  min_temp : Nat
  max_temp : Nat
  deriving DecidableEq

/-- Modelled after `DeviceFeatures` (`model.rs`). -/
structure DeviceFeatures where
  hue : Bool
  color_temp : Bool
  effects : Bool
  dimming : Bool
  dual_head : Bool
  deriving DecidableEq

/-- The `OptionalStruct` counterpart of `DeviceFeatures`: every field is
present-or-absent. -/
structure OptionalDeviceFeatures where
  hue : Option Bool
  color_temp : Option Bool
  effects : Option Bool
  dimming : Option Bool
  dual_head : Option Bool
  deriving DecidableEq

/-- Modelled after `DeviceDescriptor` (`model.rs`). -/
structure DeviceDescriptor where
  module_name : Option String
  color_temp : Option ColorTempSpace
  firmware_version : Option String
  white_channels : Option Nat
  white_to_color_ratio : Option Nat
  type_id_index : Option Nat
  deriving DecidableEq

/-- The `OptionalStruct` counterpart of `DeviceDescriptor`.  Fields that are
already `Option` in the base struct keep their type; overlay application
replaces the base field exactly when the overlay field is `some`. -/
structure OptionalDeviceDescriptor where
  module_name : Option String
  color_temp : Option ColorTempSpace
  firmware_version : Option String
  white_channels : Option Nat
  white_to_color_ratio : Option Nat
  type_id_index : Option Nat
  deriving DecidableEq

/-- Modelled after `DeviceDefinition` (`model.rs`). -/
structure DeviceDefinition where
  features : DeviceFeatures
  descriptor : DeviceDescriptor
  deriving DecidableEq

/-- Modelled after `DeviceType` (`model.rs`). -/
inductive DeviceType where
  | BulbTW
  | BulbDW
  | BulbRGB
  | Socket
  deriving DecidableEq

/-- Modelled after `Bulb` (`model.rs`). -/
inductive Bulb where
  | TunableWhite : DeviceDefinition → Bulb
  | DimmableWhite : DeviceDefinition → Bulb
  | Rgb : DeviceDefinition → Bulb
  deriving DecidableEq

/-- Modelled after `Device` (`model.rs`). -/
inductive Device where
  | Bulb : Bulb → Device
  | Socket : DeviceDefinition → Device
  deriving DecidableEq

/-- The four error structs of `wiz_errors`, merged into one sum type (the
Rust code erases them into `anyhow::Error`). -/
inductive WizError where
  | sceneIDError (given_id : Nat) (details : String)
  | sceneNameError (given_name : String) (details : String)
  | deviceTypeParseError (data : DeviceDescriptor) (details : String)
  | deviceColorTempParseError (data : DeviceDescriptor) (details : String)
  deriving DecidableEq

/-- Equality of `Except` values is decidable when it is on both sides. -/
def Except.decEq {ε α : Type} [DecidableEq ε] [DecidableEq α] :
    (a b : Except ε α) → Decidable (a = b)
  | .ok a, .ok b => decidable_of_iff (a = b) (by simp)
  | .ok _, .error _ => isFalse (fun h => Except.noConfusion h)
  | .error _, .ok _ => isFalse (fun h => Except.noConfusion h)
  | .error e, .error f => decidable_of_iff (e = f) (by simp)

instance {ε α : Type} [DecidableEq ε] [DecidableEq α] : DecidableEq (Except ε α) :=
  Except.decEq

/-- Modelled after the `Scenes` enum (`model.rs`), with its `u32`
discriminants recorded by `Scenes.id` below. -/
inductive Scenes where
  | Ocean
  | Romance
  | Sunset
  | Party
  | Fireplace
  | Cozy
  | Forest
  | PastelColors
  | Wakeup
  | Bedtime
  | WarmWhite
  | Daylight
  | CoolWhite
  | NighLight
  | Focus
  | Relax
  | Truecolors
  | TVtime
  | Plantgrowth
  | Spring
  | Summer
  | Fall
  | Deepdive
  | Jungle
  | Mojito
  | Club
  | Christmas
  | Halloween
  | Candlelight
  | GoldenWhite
  | Pulse
  | Steampunk
  | Rhythm
  deriving DecidableEq

/-- The numeric discriminant of each `Scenes` variant, exactly as declared
in the Rust enum. -/
def Scenes.id : Scenes → Nat
  | .Ocean => 1
  | .Romance => 2
  | .Sunset => 3
  | .Party => 4
  | .Fireplace => 5
  | .Cozy => 6
  | .Forest => 7
  | .PastelColors => 8
  | .Wakeup => 9
  | .Bedtime => 10
  | .WarmWhite => 11
  | .Daylight => 12
  | .CoolWhite => 13
  | .NighLight => 14
  | .Focus => 15
  | .Relax => 16
  | .Truecolors => 17
  | .TVtime => 18
  | .Plantgrowth => 19
  | .Spring => 20
  | .Summer => 21
  | .Fall => 22
  | .Deepdive => 23
  | .Jungle => 24
  | .Mojito => 25
  | .Club => 26
  | .Christmas => 27
  | .Halloween => 28
  | .Candlelight => 29
  | .GoldenWhite => 30
  | .Pulse => 31
  | .Steampunk => 32
  | .Rhythm => 1000

/-- The graph of the derived `FromPrimitive::from_u32` for `Scenes`: each
declared discriminant paired with its variant. -/
def SCENE_IDS : List (Nat × Scenes) :=
  [(1, .Ocean), (2, .Romance), (3, .Sunset), (4, .Party), (5, .Fireplace),
   (6, .Cozy), (7, .Forest), (8, .PastelColors), (9, .Wakeup), (10, .Bedtime),
   (11, .WarmWhite), (12, .Daylight), (13, .CoolWhite), (14, .NighLight),
   (15, .Focus), (16, .Relax), (17, .Truecolors), (18, .TVtime),
   (19, .Plantgrowth), (20, .Spring), (21, .Summer), (22, .Fall),
   (23, .Deepdive), (24, .Jungle), (25, .Mojito), (26, .Club),
   (27, .Christmas), (28, .Halloween), (29, .Candlelight), (30, .GoldenWhite),
   (31, .Pulse), (32, .Steampunk), (1000, .Rhythm)]

/-- The static `SCENES` name-to-id map (`lazy_static` in `model.rs`); the
Rust `HashMap` with its distinct keys is modelled as an association list. -/
def SCENES : List (String × Nat) :=
  [("Ocean", 1), ("Romance", 2), ("Sunset", 3), ("Party", 4),
   ("Fireplace", 5), ("Cozy", 6), ("Forest", 7), ("Pastel Colors", 8),
   ("Wake up", 9), ("Bedtime", 10), ("Warm White", 11), ("Daylight", 12),
   ("Cool white", 13), ("Night light", 14), ("Focus", 15), ("Relax", 16),
   ("True colors", 17), ("TV time", 18), ("Plantgrowth", 19), ("Spring", 20),
   ("Summer", 21), ("Fall", 22), ("Deepdive", 23), ("Jungle", 24),
   ("Mojito", 25), ("Club", 26), ("Christmas", 27), ("Halloween", 28),
   ("Candlelight", 29), ("Golden white", 30), ("Pulse", 31),
   ("Steampunk", 32), ("Rhythm", 1000)]

/-- `Scenes::from_id` (`model.rs:106`): `FromPrimitive::from_u32` and the
`SceneIDError` on failure. -/
def Scenes.from_id (id : Nat) : Except WizError Scenes :=
  match SCENE_IDS.lookup id with
  | some scene => .ok scene
  | none => .error (.sceneIDError id "Scene ID out of range. Expected 1-32 or 1000")

/-- `Scenes::from_name` (`model.rs:114`): exact-name lookup in `SCENES`,
then `from_id` on the found id. -/
def Scenes.from_name (name : String) : Except WizError Scenes :=
  match SCENES.lookup name with
  | some id => Scenes.from_id id
  | none => .error (.sceneNameError name "Scene name not found.")

/-- `Scenes::get_scenes_list` (`model.rs:125`): resolve each id in order,
propagating the first failure. -/
def Scenes.get_scenes_list : List Nat → Except WizError (List Scenes)
  | [] => .ok []
  | id :: rest => do
    let scene ← Scenes.from_id id
    let scenes ← Scenes.get_scenes_list rest
    pure (scene :: scenes)

/-- `Scenes::get_tunable_white_scenes` (`model.rs:135`). -/
def Scenes.get_tunable_white_scenes : Except WizError (List Scenes) :=
  Scenes.get_scenes_list [6, 9, 10, 11, 12, 13, 14, 15, 16, 18, 29, 30, 31, 32]

/-- `Scenes::get_dimmable_white_scenes` (`model.rs:140`). -/
def Scenes.get_dimmable_white_scenes : Except WizError (List Scenes) :=
  Scenes.get_scenes_list [9, 10, 13, 14, 29, 30, 31, 32]

/-- The `DEVICE_OPTS` tag strings (`model.rs:47`). -/
structure DeviceOptions where
  rgb : String
  dimmable_white : String
  tunable_white : String
  dual_head : String
  single_head : String
  socket : String

def DEVICE_OPTS : DeviceOptions :=
  { rgb := "RGB", dimmable_white := "DW", tunable_white := "TW",
    dual_head := "DH", single_head := "SH", socket := "SOCKET" }

/-- `KNOWN_TYPE_IDS` (`model.rs:55`). -/
def KNOWN_TYPE_IDS : List DeviceType := [DeviceType.BulbDW]

/-- Rust `str::contains` for string patterns: substring containment. -/
def strContains (haystack pattern : String) : Bool :=
  decide (pattern.toList <:+: haystack.toList)

/-- Rust `str::split` on a single-character separator, on char lists:
`splitChar '_' "a_b"` is `["a", "b"]`, `splitChar '_' ""` is `[""]`, and
a trailing or leading separator yields an empty token, exactly as in Rust. -/
def splitChar (sep : Char) : List Char → List Char → List (List Char)
  | [], acc => [acc.reverse]
  | c :: rest, acc =>
    if c = sep then acc.reverse :: splitChar sep rest []
    else splitChar sep rest (c :: acc)

/-- Rust `name.split("_").collect::<Vec<&str>>()` as used at `model.rs:316`. -/
def rustSplitUnderscore (s : String) : List String :=
  (splitChar '_' s.toList []).map fun token => ⟨token⟩

/-- Overlay application for a single `Option` field of `DeviceDescriptor`:
the `optional_struct` codegen replaces the base field iff the overlay field
is present. -/
def optionField {α : Type} (overlay base : Option α) : Option α :=
  if overlay.isSome then overlay else base

/-- `DeviceFeatures::apply_options` as generated by `optional_struct`. -/
def DeviceFeatures.apply_options (base : DeviceFeatures)
    (overlay : OptionalDeviceFeatures) : DeviceFeatures :=
  { hue := overlay.hue.getD base.hue,
    color_temp := overlay.color_temp.getD base.color_temp,
    effects := overlay.effects.getD base.effects,
    dimming := overlay.dimming.getD base.dimming,
    dual_head := overlay.dual_head.getD base.dual_head }

/-- `DeviceDescriptor::apply_options` as generated by `optional_struct`. -/
def DeviceDescriptor.apply_options : DeviceDescriptor → OptionalDeviceDescriptor → DeviceDescriptor
  | ⟨m, c, f, w, r, t⟩, ⟨m2, c2, f2, w2, r2, t2⟩ =>
    ⟨optionField m2 m, optionField c2 c, optionField f2 f,
     optionField w2 w, optionField r2 r, optionField t2 t⟩

/-- `Device::new` (`model.rs:201`): per-type default features, all-absent
default descriptor. -/
def Device.new (device_type : DeviceType) (features : Option DeviceFeatures)
    (descriptor : Option DeviceDescriptor) : Device :=
  match device_type with
  | .BulbTW =>
    .Bulb (.TunableWhite
      ⟨features.getD ⟨false, true, true, true, false⟩,
       descriptor.getD ⟨none, none, none, none, none, none⟩⟩)
  | .BulbDW =>
    .Bulb (.DimmableWhite
      ⟨features.getD ⟨false, false, false, true, false⟩,
       descriptor.getD ⟨none, none, none, none, none, none⟩⟩)
  | .BulbRGB =>
    .Bulb (.Rgb
      ⟨features.getD ⟨true, true, true, true, false⟩,
       descriptor.getD ⟨none, none, none, none, none, none⟩⟩)
  | .Socket =>
    .Socket
      ⟨features.getD ⟨false, false, false, false, false⟩,
       descriptor.getD ⟨none, none, none, none, none, none⟩⟩

/-- `Device::get_definition` (`model.rs:410`). -/
def Device.get_definition : Device → DeviceDefinition
  | .Socket definition => definition
  | .Bulb (.DimmableWhite definition) => definition
  | .Bulb (.TunableWhite definition) => definition
  | .Bulb (.Rgb definition) => definition

/-- `Device::get_type` (`model.rs:421`). -/
def Device.get_type : Device → DeviceType
  | .Socket _ => .Socket
  | .Bulb (.TunableWhite _) => .BulbTW
  | .Bulb (.DimmableWhite _) => .BulbDW
  | .Bulb (.Rgb _) => .BulbRGB

/-- `Device::patch_descriptor` (`model.rs:386`). -/
def Device.patch_descriptor (self : Device)
    (descriptor : OptionalDeviceDescriptor) : Device :=
  let definition := self.get_definition
  let device_type := self.get_type
  Device.new device_type (some definition.features)
    (some (definition.descriptor.apply_options descriptor))

/-- `Device::patch_features` (`model.rs:398`). -/
def Device.patch_features (self : Device)
    (features : OptionalDeviceFeatures) : Device :=
  let definition := self.get_definition
  let device_type := self.get_type
  Device.new device_type (some (definition.features.apply_options features))
    (some definition.descriptor)

/-- Lines 310-361 of `Device::from_descriptor` (`model.rs`): the seed, the
name-based path, and the index-based path.  The straight-line Rust body is
split here right before the color-temperature step at line 363; the
composition `Device.from_descriptor` below is the whole function. -/
def Device.classify (descriptor : DeviceDescriptor) : Except WizError Device :=
  let device := Device.new DeviceType.BulbDW none none
  match descriptor.module_name with
  | some name =>
    match (rustSplitUnderscore name).get? 1 with
    | none =>
      .error (.deviceTypeParseError descriptor
        "Failed to find an identifier in the descriptor.")
    | some identifier =>
      if strContains identifier DEVICE_OPTS.rgb then
        .ok (Device.new DeviceType.BulbRGB none none)
      else if strContains identifier DEVICE_OPTS.tunable_white then
        .ok (Device.new DeviceType.BulbTW none none)
      else if strContains identifier DEVICE_OPTS.socket then
        .ok (Device.new DeviceType.Socket none none)
      else
        .ok (device.patch_features
          ⟨none, none,
           some (strContains identifier DEVICE_OPTS.dual_head ||
                 strContains identifier DEVICE_OPTS.single_head),
           none,
           some (strContains identifier DEVICE_OPTS.dual_head)⟩)
  | none =>
    match descriptor.type_id_index with
    | some type_id_index =>
      match KNOWN_TYPE_IDS.get? type_id_index with
      | none =>
        .error (.deviceTypeParseError descriptor
          "Failed finding a known type ID in the descriptor")
      | some device_type =>
        .ok ((Device.new device_type none none).patch_features
          ⟨none, none, some true, none, none⟩)
    | none => .ok device

/-- Lines 363-383 of `Device::from_descriptor` (`model.rs`): the
color-temperature overlay and validation step on the classified device. -/
def Device.finalize_color_temp (descriptor_bind : DeviceDescriptor)
    (device : Device) : Except WizError Device :=
  match descriptor_bind.color_temp with
  | some color_temp =>
    .ok (device.patch_descriptor ⟨none, some color_temp, none, none, none, none⟩)
  | none =>
    if device.get_type = DeviceType.BulbRGB ∨ device.get_type = DeviceType.BulbTW then
      .error (.deviceColorTempParseError device.get_definition.descriptor
        "Bulb type should include color temp data in the descriptor.")
    else
      .ok device

/-- `Device::from_descriptor` (`model.rs:310`), as the composition of the
two straight-line halves above. -/
def Device.from_descriptor (descriptor : DeviceDescriptor) : Except WizError Device := do
  let device ← Device.classify descriptor
  Device.finalize_color_temp descriptor device

/-! ## Helper lemmas -/

theorem Device.get_type_new (t : DeviceType) (f : Option DeviceFeatures)
    (d : Option DeviceDescriptor) : (Device.new t f d).get_type = t := by
  cases t <;> rfl

theorem Device.get_definition_new (t : DeviceType) (f : DeviceFeatures)
    (d : DeviceDescriptor) : (Device.new t (some f) (some d)).get_definition = ⟨f, d⟩ := by
  cases t <;> rfl

theorem Device.new_eta (dev : Device) :
    Device.new dev.get_type (some dev.get_definition.features)
      (some dev.get_definition.descriptor) = dev := by
  cases dev with
  | Socket d => rfl
  | Bulb b => cases b <;> rfl

theorem Device.patch_features_def (dev : Device) (o : OptionalDeviceFeatures) :
    dev.patch_features o =
      Device.new dev.get_type (some (dev.get_definition.features.apply_options o))
        (some dev.get_definition.descriptor) := rfl

theorem Device.patch_descriptor_def (dev : Device) (od : OptionalDeviceDescriptor) :
    dev.patch_descriptor od =
      Device.new dev.get_type (some dev.get_definition.features)
        (some (dev.get_definition.descriptor.apply_options od)) := rfl

theorem optionField_eq_or {α : Type} (o b : Option α) : optionField o b = o.or b := by
  cases o <;> rfl

theorem optionField_idem {α : Type} (o b : Option α) :
    optionField o (optionField o b) = optionField o b := by
  cases o <;> rfl

theorem features_apply_options_empty (f : DeviceFeatures) :
    f.apply_options ⟨none, none, none, none, none⟩ = f := rfl

theorem descriptor_apply_options_empty (d : DeviceDescriptor) :
    d.apply_options ⟨none, none, none, none, none, none⟩ = d := by
  cases d
  rfl

theorem features_apply_options_idem (f : DeviceFeatures) (o : OptionalDeviceFeatures) :
    (f.apply_options o).apply_options o = f.apply_options o := by
  rcases o with ⟨h, c, e, d, u⟩
  cases h <;> cases c <;> cases e <;> cases d <;> cases u <;> rfl

theorem descriptor_apply_options_idem (d : DeviceDescriptor)
    (od : OptionalDeviceDescriptor) :
    (d.apply_options od).apply_options od = d.apply_options od := by
  cases d
  rcases od with ⟨m, c, f, w, r, t⟩
  simp [DeviceDescriptor.apply_options, optionField_idem]

example :
    Device.from_descriptor ⟨some "FOO_TWxyz", some ⟨2700, 6500⟩, none, none, none, none⟩ =
      .ok (Device.Bulb (.TunableWhite
        ⟨⟨false, true, true, true, false⟩,
         ⟨none, some ⟨2700, 6500⟩, none, none, none, none⟩⟩)) := by decide

example :
    Device.from_descriptor ⟨some "NoUnderscoreHere", none, none, none, none, none⟩ =
      .error (.deviceTypeParseError ⟨some "NoUnderscoreHere", none, none, none, none, none⟩
        "Failed to find an identifier in the descriptor.") := by decide

example : Scenes.from_id 1000 = .ok .Rhythm := by decide

example : (Scenes.get_dimmable_white_scenes).isOk = true := by decide

/-! ## Claim theorems -/

/-- Claim C4: for each of the four `DeviceType` values `t`,
`Device::new(t, None, None)` is pure and total, yields the default feature
table (BulbTW: hue=false, color_temp=true, effects=true, dimming=true,
dual_head=false; BulbDW: only dimming=true; BulbRGB: all true except
dual_head; Socket: all false) together with an all-fields-absent
descriptor, and `get_type` of the result equals `t`. -/
theorem c4_new_default_feature_table :
    ∀ t : DeviceType,
      (Device.new t none none).get_type = t ∧
      (Device.new t none none).get_definition.descriptor =
        ⟨none, none, none, none, none, none⟩ ∧
      (Device.new t none none).get_definition.features =
        (match t with
         | .BulbTW => ⟨false, true, true, true, false⟩
         | .BulbDW => ⟨false, false, false, true, false⟩
         | .BulbRGB => ⟨true, true, true, true, false⟩
         | .Socket => ⟨false, false, false, false, false⟩) := by
  intro t
  cases t <;> exact ⟨rfl, rfl, rfl⟩

/-- Claim C5: patching preserves the type tag: for every device and every
features or descriptor overlay, the patched device reports the same
`get_type` as the original. -/
theorem c5_patch_preserves_type (dev : Device) (o : OptionalDeviceFeatures)
    (od : OptionalDeviceDescriptor) :
    (dev.patch_features o).get_type = dev.get_type ∧
    (dev.patch_descriptor od).get_type = dev.get_type :=
  ⟨Device.get_type_new _ _ _, Device.get_type_new _ _ _⟩

/-- Claim C7: patch application is idempotent — an all-absent overlay is the
identity, patching twice with the same overlay equals patching once — and
each overlayed field takes the overlay's value when present and the base's
value otherwise (`Option.getD` for the plain feature fields, `Option.or`
for the already-optional descriptor fields). -/
theorem c7_patch_idempotent (dev : Device) (o : OptionalDeviceFeatures)
    (od : OptionalDeviceDescriptor) :
    dev.patch_features ⟨none, none, none, none, none⟩ = dev ∧
    dev.patch_descriptor ⟨none, none, none, none, none, none⟩ = dev ∧
    (dev.patch_features o).patch_features o = dev.patch_features o ∧
    (dev.patch_descriptor od).patch_descriptor od = dev.patch_descriptor od ∧
    (dev.patch_features o).get_definition.features =
      dev.get_definition.features.apply_options o ∧
    (dev.patch_descriptor od).get_definition.descriptor =
      dev.get_definition.descriptor.apply_options od ∧
    (∀ h c e di du h2 c2 e2 di2 du2,
      DeviceFeatures.apply_options ⟨h, c, e, di, du⟩ ⟨h2, c2, e2, di2, du2⟩ =
        ⟨h2.getD h, c2.getD c, e2.getD e, di2.getD di, du2.getD du⟩) ∧
    (∀ m c f w r t m2 c2 f2 w2 r2 t2,
      DeviceDescriptor.apply_options ⟨m, c, f, w, r, t⟩ ⟨m2, c2, f2, w2, r2, t2⟩ =
        ⟨m2.or m, c2.or c, f2.or f, w2.or w, r2.or r, t2.or t⟩) := by
  refine ⟨?_, ?_, ?_, ?_, ?_, ?_, ?_, ?_⟩
  · rw [Device.patch_features_def, features_apply_options_empty]
    exact Device.new_eta dev
  · rw [Device.patch_descriptor_def, descriptor_apply_options_empty]
    exact Device.new_eta dev
  · simp [Device.patch_features_def, Device.get_type_new, Device.get_definition_new,
      features_apply_options_idem]
  · simp [Device.patch_descriptor_def, Device.get_type_new, Device.get_definition_new,
      descriptor_apply_options_idem]
  · simp [Device.patch_features_def, Device.get_definition_new]
  · simp [Device.patch_descriptor_def, Device.get_definition_new]
  · intro h c e di du h2 c2 e2 di2 du2
    rfl
  · intro m c f w r t m2 c2 f2 w2 r2 t2
    simp [DeviceDescriptor.apply_options, optionField_eq_or]

theorem lookup_eq_none_of_not_mem_keys {β : Type} (a : Nat) (l : List (Nat × β))
    (h : a ∉ l.map Prod.fst) : l.lookup a = none := by
  induction l with
  | nil => rfl
  | cons p rest ih =>
    obtain ⟨k, b⟩ := p
    simp only [List.map_cons, List.mem_cons] at h
    push_neg at h
    have hk : (a == k) = false := beq_eq_false_iff_ne.mpr h.1
    simp [List.lookup, hk, ih h.2]

/-- Claim C9: the scene catalog round-trips — `from_name` on each of the 33
catalog display names succeeds with the scene carrying that name's id (the
id set being {1..32} ∪ {1000}), and `from_id` on any `u32` outside that set
fails with a `SceneIDError` carrying exactly that id. -/
theorem c9_scene_catalog_roundtrip :
    SCENE_IDS.map Prod.fst = (List.range 32).map (· + 1) ++ [1000] ∧
    (∀ p ∈ SCENES, ∃ s, Scenes.from_name p.1 = .ok s ∧ Scenes.id s = p.2) ∧
    (∀ id : Nat, id < 4294967296 → id ∉ SCENE_IDS.map Prod.fst →
      Scenes.from_id id =
        .error (.sceneIDError id "Scene ID out of range. Expected 1-32 or 1000")) := by
  refine ⟨by decide, ?_, ?_⟩
  · intro p hp
    fin_cases hp <;> exact ⟨_, rfl, rfl⟩
  · intro id _ h
    unfold Scenes.from_id
    rw [lookup_eq_none_of_not_mem_keys id SCENE_IDS h]

/-- Witness for C9 at concrete inputs: the name "Rhythm" round-trips to id
1000, and id 33 (inside the u32 range, outside the catalog) fails with the
error carrying 33. -/
theorem c9_witness :
    (∃ s, Scenes.from_name "Rhythm" = .ok s ∧ Scenes.id s = 1000) ∧
    Scenes.from_id 33 =
      .error (.sceneIDError 33 "Scene ID out of range. Expected 1-32 or 1000") :=
  ⟨c9_scene_catalog_roundtrip.2.1 ⟨"Rhythm", 1000⟩ (by decide),
   c9_scene_catalog_roundtrip.2.2 33 (by decide) (by decide)⟩

/-- Claim C10: `get_tunable_white_scenes` is `Ok` with exactly the 14
scenes of ids 6,9,10,11,12,13,14,15,16,18,29,30,31,32 in that order,
`get_dimmable_white_scenes` is `Ok` with exactly the 8 scenes of ids
9,10,13,14,29,30,31,32 in that order, and `get_scenes_list` propagates any
id-resolution failure instead of skipping the entry. -/
theorem c10_derived_scene_lists :
    Scenes.get_tunable_white_scenes =
      .ok [.Cozy, .Wakeup, .Bedtime, .WarmWhite, .Daylight, .CoolWhite, .NighLight,
           .Focus, .Relax, .TVtime, .Candlelight, .GoldenWhite, .Pulse, .Steampunk] ∧
    Scenes.get_tunable_white_scenes.map (List.map Scenes.id) =
      .ok [6, 9, 10, 11, 12, 13, 14, 15, 16, 18, 29, 30, 31, 32] ∧
    Scenes.get_dimmable_white_scenes =
      .ok [.Wakeup, .Bedtime, .CoolWhite, .NighLight, .Candlelight, .GoldenWhite,
           .Pulse, .Steampunk] ∧
    Scenes.get_dimmable_white_scenes.map (List.map Scenes.id) =
      .ok [9, 10, 13, 14, 29, 30, 31, 32] ∧
    (∀ (ids : List Nat) (id : Nat), id ∈ ids →
      (∃ e, Scenes.from_id id = .error e) →
      ∃ e, Scenes.get_scenes_list ids = .error e) := by
  refine ⟨by decide, by decide, by decide, by decide, ?_⟩
  intro ids id hmem he
  obtain ⟨e, he⟩ := he
  induction ids with
  | nil => cases hmem
  | cons x rest ih =>
    rcases List.mem_cons.mp hmem with hx | hrest
    · subst hx
      exact ⟨e, by simp only [Scenes.get_scenes_list, he]; rfl⟩
    · cases hx : Scenes.from_id x with
      | error e2 => exact ⟨e2, by simp only [Scenes.get_scenes_list, hx]; rfl⟩
      | ok s =>
        obtain ⟨e3, he3⟩ := ih hrest
        exact ⟨e3, by simp only [Scenes.get_scenes_list, hx, he3]; rfl⟩

/-- Witness for C10 at a concrete input: id 0 is not resolvable, and a list
containing it makes `get_scenes_list` fail rather than skip. -/
theorem c10_witness : ∃ e, Scenes.get_scenes_list [6, 0, 9] = .error e :=
  c10_derived_scene_lists.2.2.2.2 [6, 0, 9] 0 (by decide)
    ⟨.sceneIDError 0 "Scene ID out of range. Expected 1-32 or 1000", by decide⟩

/-- Every device the classification stage returns still carries the
all-absent seed descriptor: only the color-temperature step afterwards can
put data into it. -/
theorem classify_descriptor_all_none (d : DeviceDescriptor) (dev : Device)
    (h : Device.classify d = .ok dev) :
    dev.get_definition.descriptor = ⟨none, none, none, none, none, none⟩ := by
  unfold Device.classify at h
  cases hm : d.module_name with
  | some name =>
    simp only [hm] at h
    cases hid : (rustSplitUnderscore name).get? 1 with
    | none =>
      simp only [hid] at h
      exact Except.noConfusion h
    | some identifier =>
      simp only [hid] at h
      split_ifs at h <;> (injection h with h2; subst h2; rfl)
  | none =>
    simp only [hm] at h
    cases ht : d.type_id_index with
    | none =>
      simp only [ht] at h
      injection h with h2
      subst h2
      rfl
    | some idx =>
      simp only [ht] at h
      cases hk : KNOWN_TYPE_IDS.get? idx with
      | none =>
        simp only [hk] at h
        exact Except.noConfusion h
      | some t =>
        simp only [hk] at h
        injection h with h2
        subst h2
        cases t <;> rfl

/-- Claim C1: with `module_name` present, `from_descriptor` splits the name
on `_` and takes the token at index 1 as the identifier; without such a
token it fails with `DeviceTypeParseError` carrying the full original
descriptor; otherwise classification follows the precedence RGB, then TW,
then SOCKET, and in the no-match fallback the device stays the `BulbDW`
seed with `effects = (contains DH or contains SH)` and
`dual_head = contains DH` overlaid. -/
theorem c1_name_based_classification (d : DeviceDescriptor) (name : String)
    (hname : d.module_name = some name) :
    ((rustSplitUnderscore name).get? 1 = none →
      Device.from_descriptor d =
        .error (.deviceTypeParseError d
          "Failed to find an identifier in the descriptor.")) ∧
    (∀ identifier, (rustSplitUnderscore name).get? 1 = some identifier →
      ∃ dev, Device.classify d = .ok dev ∧
        dev.get_type =
          (if strContains identifier "RGB" = true then DeviceType.BulbRGB
           else if strContains identifier "TW" = true then DeviceType.BulbTW
           else if strContains identifier "SOCKET" = true then DeviceType.Socket
           else DeviceType.BulbDW) ∧
        (strContains identifier "RGB" = false → strContains identifier "TW" = false →
          strContains identifier "SOCKET" = false →
          dev.get_definition.features =
            ⟨false, false,
             strContains identifier "DH" || strContains identifier "SH", true,
             strContains identifier "DH"⟩)) := by
  constructor
  · intro hid
    simp only [Device.from_descriptor, Device.classify, hname, hid]
    rfl
  · intro identifier hid
    cases hRGB : strContains identifier "RGB" with
    | true =>
      refine ⟨Device.new DeviceType.BulbRGB none none, ?_, ?_, ?_⟩
      · simp only [Device.classify, hname, hid]
        simp [DEVICE_OPTS, hRGB]
      · simp [Device.get_type_new]
      · intro hr _ _
        exact Bool.noConfusion hr
    | false =>
      cases hTW : strContains identifier "TW" with
      | true =>
        refine ⟨Device.new DeviceType.BulbTW none none, ?_, ?_, ?_⟩
        · simp only [Device.classify, hname, hid]
          simp [DEVICE_OPTS, hRGB, hTW]
        · simp [Device.get_type_new]
        · intro _ htw _
          exact Bool.noConfusion htw
      | false =>
        cases hSOCK : strContains identifier "SOCKET" with
        | true =>
          refine ⟨Device.new DeviceType.Socket none none, ?_, ?_, ?_⟩
          · simp only [Device.classify, hname, hid]
            simp [DEVICE_OPTS, hRGB, hTW, hSOCK]
          · simp [Device.get_type_new]
          · intro _ _ hso
            exact Bool.noConfusion hso
        | false =>
          refine ⟨(Device.new DeviceType.BulbDW none none).patch_features
            ⟨none, none,
             some (strContains identifier "DH" || strContains identifier "SH"),
             none, some (strContains identifier "DH")⟩, ?_, ?_, ?_⟩
          · simp only [Device.classify, hname, hid]
            simp [DEVICE_OPTS, hRGB, hTW, hSOCK]
          · simp [Device.patch_features_def, Device.get_type_new]
          · intro _ _ _
            rfl

/-- Witness for C1 at a concrete input: the descriptor with module name
"FOO_DH1" takes the fallback branch and resolves to the `BulbDW` seed with
effects and dual_head overlaid. -/
theorem c1_witness :
    ∃ dev, Device.classify ⟨some "FOO_DH1", none, none, none, none, none⟩ = .ok dev ∧
      dev.get_type = DeviceType.BulbDW ∧
      (strContains "DH1" "RGB" = false → strContains "DH1" "TW" = false →
        strContains "DH1" "SOCKET" = false →
        dev.get_definition.features =
          ⟨false, false, strContains "DH1" "DH" || strContains "DH1" "SH", true,
           strContains "DH1" "DH"⟩) :=
  (c1_name_based_classification ⟨some "FOO_DH1", none, none, none, none, none⟩
    "FOO_DH1" rfl).2 "DH1" (by decide)

/-- Claim C2: after classification, a present `color_temp` is overlaid onto
the resolved device's descriptor; an absent one makes `from_descriptor`
fail with `DeviceColorTempParseError` carrying the resolved device's
descriptor exactly when the resolved type is `BulbRGB` or `BulbTW`, while
`BulbDW` and `Socket` never trigger this error. -/
theorem c2_color_temp_validation (d : DeviceDescriptor) (dev : Device)
    (hclass : Device.classify d = .ok dev) :
    ((dev.get_type = DeviceType.BulbRGB ∨ dev.get_type = DeviceType.BulbTW) ∨
      (dev.get_type = DeviceType.BulbDW ∨ dev.get_type = DeviceType.Socket)) ∧
    (∀ ct, d.color_temp = some ct →
      Device.from_descriptor d =
        .ok (dev.patch_descriptor ⟨none, some ct, none, none, none, none⟩)) ∧
    (d.color_temp = none →
      (dev.get_type = DeviceType.BulbRGB ∨ dev.get_type = DeviceType.BulbTW) →
      Device.from_descriptor d =
        .error (.deviceColorTempParseError dev.get_definition.descriptor
          "Bulb type should include color temp data in the descriptor.")) ∧
    (d.color_temp = none →
      (dev.get_type = DeviceType.BulbDW ∨ dev.get_type = DeviceType.Socket) →
      Device.from_descriptor d = .ok dev) := by
  refine ⟨?_, ?_, ?_, ?_⟩
  · rcases hT : dev.get_type <;> simp [hT]
  · intro ct hct
    simp only [Device.from_descriptor, hclass]
    show Device.finalize_color_temp d dev = _
    simp only [Device.finalize_color_temp, hct]
  · intro hct htype
    simp only [Device.from_descriptor, hclass]
    show Device.finalize_color_temp d dev = _
    simp only [Device.finalize_color_temp, hct]
    rw [if_pos htype]
  · intro hct htype
    simp only [Device.from_descriptor, hclass]
    show Device.finalize_color_temp d dev = _
    simp only [Device.finalize_color_temp, hct]
    have hno : ¬(dev.get_type = DeviceType.BulbRGB ∨ dev.get_type = DeviceType.BulbTW) := by
      rcases htype with h | h <;> rw [h] <;> rintro (h2 | h2) <;> cases h2
    rw [if_neg hno]

/-- Witness for C2 at a concrete input: "FOO_TWxyz" with no color_temp
resolves to `BulbTW` and then fails with the error carrying the resolved
(all-absent) descriptor, not the original one. -/
theorem c2_witness :
    Device.from_descriptor ⟨some "FOO_TWxyz", none, none, none, none, none⟩ =
      .error (.deviceColorTempParseError
        (Device.new DeviceType.BulbTW none none).get_definition.descriptor
        "Bulb type should include color temp data in the descriptor.") :=
  (c2_color_temp_validation ⟨some "FOO_TWxyz", none, none, none, none, none⟩
    (Device.new DeviceType.BulbTW none none) (by decide)).2.2.1 rfl (Or.inr rfl)

/-- Claim C3: with `module_name` absent and `type_id_index` present, the
index is looked up in `KNOWN_TYPE_IDS` (currently just index 0 mapping to
`BulbDW`); an out-of-range index fails with `DeviceTypeParseError`
carrying the original descriptor, and on success the device takes the
looked-up type with `effects = true` unconditionally overlaid onto that
type's default features. -/
theorem c3_index_based_classification (d : DeviceDescriptor) (idx : Nat)
    (hm : d.module_name = none) (ht : d.type_id_index = some idx) :
    KNOWN_TYPE_IDS = [DeviceType.BulbDW] ∧
    (KNOWN_TYPE_IDS.get? idx = none →
      Device.from_descriptor d =
        .error (.deviceTypeParseError d
          "Failed finding a known type ID in the descriptor")) ∧
    (∀ t, KNOWN_TYPE_IDS.get? idx = some t →
      ∃ dev, Device.classify d = .ok dev ∧
        dev.get_type = t ∧
        dev.get_definition.features =
          ⟨(Device.new t none none).get_definition.features.hue,
           (Device.new t none none).get_definition.features.color_temp,
           true,
           (Device.new t none none).get_definition.features.dimming,
           (Device.new t none none).get_definition.features.dual_head⟩) := by
  refine ⟨rfl, ?_, ?_⟩
  · intro hnone
    simp only [Device.from_descriptor, Device.classify, hm, ht, hnone]
    rfl
  · intro t hsome
    refine ⟨(Device.new t none none).patch_features ⟨none, none, some true, none, none⟩,
      ?_, ?_, ?_⟩
    · simp only [Device.classify, hm, ht, hsome]
    · simp [Device.patch_features_def, Device.get_type_new]
    · simp [Device.patch_features_def, Device.get_definition_new,
        DeviceFeatures.apply_options]

/-- Witness for C3 at concrete inputs: index 99 is out of range and fails
with the original descriptor; index 0 resolves to `BulbDW` with effects
overlaid. -/
theorem c3_witness :
    Device.from_descriptor ⟨none, none, none, none, none, some 99⟩ =
      .error (.deviceTypeParseError ⟨none, none, none, none, none, some 99⟩
        "Failed finding a known type ID in the descriptor") ∧
    (∃ dev, Device.classify ⟨none, none, none, none, none, some 0⟩ = .ok dev ∧
      dev.get_type = DeviceType.BulbDW ∧
      dev.get_definition.features =
        ⟨(Device.new DeviceType.BulbDW none none).get_definition.features.hue,
         (Device.new DeviceType.BulbDW none none).get_definition.features.color_temp,
         true,
         (Device.new DeviceType.BulbDW none none).get_definition.features.dimming,
         (Device.new DeviceType.BulbDW none none).get_definition.features.dual_head⟩) :=
  ⟨(c3_index_based_classification ⟨none, none, none, none, none, some 99⟩ 99
      rfl rfl).2.1 rfl,
   (c3_index_based_classification ⟨none, none, none, none, none, some 0⟩ 0
      rfl rfl).2.2 DeviceType.BulbDW rfl⟩

/-- Claim C6: whenever `from_descriptor` succeeds, the returned device's
descriptor is the all-absent descriptor except that it carries exactly the
input's `color_temp` — module name, firmware version, white channels,
white-to-color ratio and type id index are never retained. -/
theorem c6_result_descriptor_minimal (d : DeviceDescriptor) (dev : Device)
    (h : Device.from_descriptor d = .ok dev) :
    dev.get_definition.descriptor = ⟨none, d.color_temp, none, none, none, none⟩ := by
  unfold Device.from_descriptor at h
  cases hc : Device.classify d with
  | error e =>
    simp only [hc] at h
    have h2 : (Except.error e : Except WizError Device) = .ok dev := h
    exact Except.noConfusion h2
  | ok dev0 =>
    have hd0 := classify_descriptor_all_none d dev0 hc
    simp only [hc] at h
    have h2 : Device.finalize_color_temp d dev0 = .ok dev := h
    unfold Device.finalize_color_temp at h2
    cases hct : d.color_temp with
    | some ct =>
      simp only [hct] at h2
      injection h2 with h3
      subst h3
      rw [Device.patch_descriptor_def, Device.get_definition_new, hd0]
      rfl
    | none =>
      simp only [hct] at h2
      split at h2
      · cases h2
      · injection h2 with h3
        subst h3
        exact hd0

/-- Witness for C6 at a concrete input: the tunable-white descriptor with a
color-temperature range resolves to a device whose descriptor keeps only
that range. -/
theorem c6_witness :
    (Device.Bulb (.TunableWhite
      ⟨⟨false, true, true, true, false⟩,
       ⟨none, some ⟨2700, 6500⟩, none, none, none, none⟩⟩)).get_definition.descriptor =
      ⟨none, some ⟨2700, 6500⟩, none, none, none, none⟩ :=
  c6_result_descriptor_minimal
    ⟨some "FOO_TWxyz", some ⟨2700, 6500⟩, some "1.2.3", some 2, some 5, some 0⟩
    (Device.Bulb (.TunableWhite
      ⟨⟨false, true, true, true, false⟩,
       ⟨none, some ⟨2700, 6500⟩, none, none, none, none⟩⟩))
    (by decide)

/-- Claim C8: a descriptor with neither `module_name` nor `type_id_index`
never errors: `from_descriptor` returns the provisional `BulbDW` seed with
its default features, with the input's `color_temp` (when present)
overlaid onto its otherwise all-absent descriptor. -/
theorem c8_silent_fallback (d : DeviceDescriptor) (hm : d.module_name = none)
    (ht : d.type_id_index = none) :
    Device.from_descriptor d =
      .ok (Device.Bulb (.DimmableWhite
        ⟨⟨false, false, false, true, false⟩,
         ⟨none, d.color_temp, none, none, none, none⟩⟩)) := by
  simp only [Device.from_descriptor, Device.classify, hm, ht]
  show Device.finalize_color_temp d _ = _
  unfold Device.finalize_color_temp
  cases hct : d.color_temp with
  | some ct => rfl
  | none => rfl

/-- Witness for C8 at a concrete input: the all-absent descriptor resolves
silently to the default `BulbDW` seed. -/
theorem c8_witness :
    Device.from_descriptor ⟨none, none, none, none, none, none⟩ =
      .ok (Device.Bulb (.DimmableWhite
        ⟨⟨false, false, false, true, false⟩,
         ⟨none, none, none, none, none, none⟩⟩)) :=
  c8_silent_fallback ⟨none, none, none, none, none, none⟩ rfl rfl
